import Mathlib

/-!
Shallow embedding of `src/AuthProvider.jsx`: a client-side session manager
with four operations (`initializeAuth`, `login`, `register`, `logout`)
over a state holding the React state triple (`user`, `token`, `loading`),
the persisted `localStorage` slot for the token, and the last `navigate`
target. Backend calls are modelled by passing the response of the single
HTTP request each operation makes as an `Except AxiosError _` argument;
the JavaScript falsiness of optional string values (absent, `null`, or
the empty string) is captured by `truthy`.
-/

namespace AuthProvider

/-- An optional JavaScript string value: `none` models an absent, `undefined`
or `null` field, `some s` a string (possibly empty). -/
abbrev JsStr := Option String

/-- JavaScript truthiness of an optional string: absent, `null` and the
empty string are falsy, every other string is truthy. -/
def truthy : JsStr → Bool
  | none => false
  | some s => s ≠ ""

/-- A user record as the code reads it: `role` drives the redirect after
login/register, `access_token` is consulted during init for a refreshed
token (`userData.access_token`). -/
structure UserData where
  role : String
  access_token : JsStr := none
  deriving Repr, DecidableEq

/-- Payload of a backend error response, `error.response.data`: both the
`error` and the `message` field may be absent or empty. -/
structure ErrData where
  error : JsStr := none
  message : JsStr := none
  deriving Repr, DecidableEq

/-- A backend error response, `error.response`: its `data` may be absent. -/
structure ErrResponse where
  data : Option ErrData := none
  deriving Repr, DecidableEq

/-- An error raised by an axios request: `response` is absent for
network-level failures that never reached the server. -/
structure AxiosError where
  response : Option ErrResponse := none
  deriving Repr, DecidableEq

/-- The message extraction of the catch blocks of `login` and `register`:
`error.response?.data?.error || error.response?.data?.message || dflt`,
with `||` selecting the first truthy operand. -/
def extractErrMsg (dflt : String) (e : AxiosError) : String :=
  match e.response with
  | none => dflt
  | some r =>
    match r.data with
    | none => dflt
    | some d =>
      if truthy d.error then d.error.getD ""
      else if truthy d.message then d.message.getD ""
      else dflt

/-- The payload `response.data` of the `GET /auth/me/` request: `user` is
the optional `.user` field, `asUser` is the whole payload read as a user
record, used when `.user` is absent
(`const userData = response.data.user || response.data`). -/
structure MeData where
  user : Option UserData := none
  asUser : UserData
  deriving Repr, DecidableEq

/-- The payload `response.data` of the login and register requests:
`{ user, access_token }`, where either field may be absent. -/
structure SessionData where
  user : Option UserData := none
  access_token : JsStr := none
  deriving Repr, DecidableEq

/-- The provider state: the React state (`user`, `token`, `loading`), the
persisted `localStorage` slot `stored` for the key `token`, and the last
target passed to `navigate` (`none` when no navigation happened yet). -/
structure AuthState where
  user : Option UserData := none
  token : JsStr := none
  loading : Bool := true
  stored : JsStr := none
  nav : Option String := none
  deriving Repr, DecidableEq

/-- The result object `login` and `register` return to their caller:
`{ success }` on the success path, `{ success, error }` in the catch
block. -/
structure AuthResult where
  success : Bool
  error : Option String := none
  deriving Repr, DecidableEq

/-- Navigation target for users whose role is `admin`. -/
def adminDashboard : String := "/dashboard/admin"

/-- Navigation target for every other user. -/
def customerDashboard : String := "/dashboard/customer"

/-- Navigation target of `logout`. -/
def homeRoute : String := "/"

/-- The role-based redirect shared by `login` and `register`:
`userData.role === admin` selects the admin dashboard, anything else the
customer dashboard. -/
def roleTarget (u : UserData) : String :=
  if u.role = "admin" then adminDashboard else customerDashboard

/-- The `initializeAuth` closure of the mount effect. `me` is the outcome
of `GET /auth/me/`, consulted only when a truthy token is persisted
(the code returns early on `if (!storedToken)`). The `finally` block sets
`loading` to `false` on every path through the `try`. -/
def initializeAuth (me : Except AxiosError MeData) (s : AuthState) : AuthState :=
  let s := { s with loading := true }
  if truthy s.stored then
    match me with
    | .ok d =>
      let userData := d.user.getD d.asUser
      let s := { s with user := some userData }
      let realToken := if truthy userData.access_token then userData.access_token
                       else s.stored
      let s := if truthy realToken then { s with stored := realToken, token := realToken }
               else s
      { s with loading := false }
    | .error _ =>
      { s with user := none, token := none, stored := none, loading := false }
  else
    { s with user := none, loading := false }

/-- The `login` operation. `resp` is the outcome of
`POST /auth/login/ {email, password}`. On a success response the token is
stored only when truthy, the user is set, and the role decides the
redirect; when the response carries no `user` field the destructured
`userData` is `undefined`, `userData.role` raises a `TypeError` inside the
`try`, and the catch block (whose error has no `.response`) clears the
state and returns the default failure. The catch block clears `user`,
`token` and the persisted slot and returns
`{ success: false, error: <extracted message> }`; the `finally` block
ends `loading` at `false` on every path. -/
def login (resp : Except AxiosError SessionData) (_email _password : String)
    (s : AuthState) : AuthResult × AuthState :=
  let s := { s with loading := true }
  match resp with
  | .ok d =>
    let s := if truthy d.access_token
             then { s with stored := d.access_token, token := d.access_token }
             else s
    match d.user with
    | some userData =>
      let s := { s with user := some userData, nav := some (roleTarget userData) }
      ({ success := true }, { s with loading := false })
    | none =>
      ({ success := false, error := some "Login failed" },
       { s with user := none, token := none, stored := none, loading := false })
  | .error e =>
    ({ success := false, error := some (extractErrMsg "Login failed" e) },
     { s with user := none, token := none, stored := none, loading := false })

/-- The `register` operation: same contract as `login` against
`POST /auth/register/ {email, password, name, role}` (the `role` argument
defaults to `customer` at the call site), with the default failure message
`Registration failed`. -/
def register (resp : Except AxiosError SessionData)
    (_email _password _name _role : String) (s : AuthState) :
    AuthResult × AuthState :=
  let s := { s with loading := true }
  match resp with
  | .ok d =>
    let s := if truthy d.access_token
             then { s with stored := d.access_token, token := d.access_token }
             else s
    match d.user with
    | some userData =>
      let s := { s with user := some userData, nav := some (roleTarget userData) }
      ({ success := true }, { s with loading := false })
    | none =>
      ({ success := false, error := some "Registration failed" },
       { s with user := none, token := none, stored := none, loading := false })
  | .error e =>
    ({ success := false, error := some (extractErrMsg "Registration failed" e) },
     { s with user := none, token := none, stored := none, loading := false })

/-- The `logout` operation. `resp` is the outcome of `POST /auth/logout/`;
the catch block only logs it, and the `finally` block unconditionally
clears `user`, `token` and the persisted slot and navigates home.
`loading` is not touched. -/
def logout (resp : Except AxiosError Unit) (s : AuthState) : AuthState :=
  match resp with
  | .ok _ =>
    { s with user := none, token := none, stored := none, nav := some homeRoute }
  | .error _ =>
    { s with user := none, token := none, stored := none, nav := some homeRoute }

/-- Claim C1: in every operation, on every path where the token is cleared
(state token set to absent and the persisted slot removed), the user is
cleared in the same step, and on every failure path where the user is
cleared, the token and the persisted token are cleared as well: the
fetch-error path of init, the catch blocks of login and register (reached
both on a request error and on a success response without a user record,
where the destructured `userData.role` raises a TypeError), and the
finally block of logout each leave user, token and the persisted slot all
absent. -/
theorem auth_clear_consistency :
    (∀ (e : AxiosError) (s : AuthState), truthy s.stored →
      (initializeAuth (.error e) s).user = none ∧
      (initializeAuth (.error e) s).token = none ∧
      (initializeAuth (.error e) s).stored = none) ∧
    (∀ (e : AxiosError) (em pw : String) (s : AuthState),
      (login (.error e) em pw s).2.user = none ∧
      (login (.error e) em pw s).2.token = none ∧
      (login (.error e) em pw s).2.stored = none) ∧
    (∀ (tk : JsStr) (em pw : String) (s : AuthState),
      (login (.ok ⟨none, tk⟩) em pw s).2.user = none ∧
      (login (.ok ⟨none, tk⟩) em pw s).2.token = none ∧
      (login (.ok ⟨none, tk⟩) em pw s).2.stored = none) ∧
    (∀ (e : AxiosError) (em pw nm rl : String) (s : AuthState),
      (register (.error e) em pw nm rl s).2.user = none ∧
      (register (.error e) em pw nm rl s).2.token = none ∧
      (register (.error e) em pw nm rl s).2.stored = none) ∧
    (∀ (tk : JsStr) (em pw nm rl : String) (s : AuthState),
      (register (.ok ⟨none, tk⟩) em pw nm rl s).2.user = none ∧
      (register (.ok ⟨none, tk⟩) em pw nm rl s).2.token = none ∧
      (register (.ok ⟨none, tk⟩) em pw nm rl s).2.stored = none) ∧
    (∀ (r : Except AxiosError Unit) (s : AuthState),
      (logout r s).user = none ∧
      (logout r s).token = none ∧
      (logout r s).stored = none) := by
  refine ⟨?_, ?_, ?_, ?_, ?_, ?_⟩
  · intro e s h
    simp [initializeAuth, h]
  · intro e em pw s
    simp [login]
  · intro tk em pw s
    cases htk : truthy tk <;> simp [login, htk]
  · intro e em pw nm rl s
    simp [register]
  · intro tk em pw nm rl s
    cases htk : truthy tk <;> simp [register, htk]
  · intro r s
    cases r <;> simp [logout]

/-- Claim C1 witness: the clearing consistency instantiated at concrete
states with a truthy persisted token, including the success response
without a user record. -/
theorem auth_clear_consistency_witness :
    truthy (AuthState.stored ⟨none, some "t", true, some "t", none⟩) = true ∧
    (initializeAuth (.error ⟨none⟩) ⟨none, some "t", true, some "t", none⟩).user = none ∧
    (login (.ok ⟨none, some "t2"⟩) "a@b.com" "pw"
       ⟨none, some "t", true, some "t", none⟩).2.stored = none ∧
    (logout (.error ⟨none⟩) ⟨none, some "t", true, some "t", none⟩).stored = none :=
  ⟨by decide,
   (auth_clear_consistency.1 ⟨none⟩ ⟨none, some "t", true, some "t", none⟩ (by decide)).1,
   (auth_clear_consistency.2.2.1 (some "t2") "a@b.com" "pw"
      ⟨none, some "t", true, some "t", none⟩).2.2,
   (auth_clear_consistency.2.2.2.2.2 (.error ⟨none⟩)
      ⟨none, some "t", true, some "t", none⟩).2.2⟩

/-- Claim C2: login and register never throw: for every backend response
or failure they return a result tagged with a success flag, and on failure
the result carries a message. The absence of an exception channel is
structural (both return `AuthResult × AuthState` totally); this theorem
adds that a success result carries no error message and a failure result
always carries one. -/
theorem login_register_tagged_result :
    (∀ (resp : Except AxiosError SessionData) (em pw : String) (s : AuthState),
      ((login resp em pw s).1.success = true ∧ (login resp em pw s).1.error = none) ∨
      ((login resp em pw s).1.success = false ∧
        ∃ m, (login resp em pw s).1.error = some m)) ∧
    (∀ (resp : Except AxiosError SessionData) (em pw nm rl : String) (s : AuthState),
      ((register resp em pw nm rl s).1.success = true ∧
        (register resp em pw nm rl s).1.error = none) ∨
      ((register resp em pw nm rl s).1.success = false ∧
        ∃ m, (register resp em pw nm rl s).1.error = some m)) := by
  constructor
  · intro resp em pw s
    match resp with
    | .ok d =>
      match hu : d.user with
      | some u => left; simp [login, hu]
      | none => right; simp [login, hu]
    | .error e => right; simp [login]
  · intro resp em pw nm rl s
    match resp with
    | .ok d =>
      match hu : d.user with
      | some u => left; simp [register, hu]
      | none => right; simp [register, hu]
    | .error e => right; simp [register]

/-- Claim C3: with no truthy persisted token at startup, init sets the
user to absent and loading to false, leaves the persisted slot untouched,
and never consults the backend (the result does not depend on the `me`
response). -/
theorem init_no_token_state (me : Except AxiosError MeData) (s : AuthState)
    (h : ¬ truthy s.stored) :
    (initializeAuth me s).user = none ∧
    (initializeAuth me s).loading = false ∧
    (initializeAuth me s).stored = s.stored ∧
    (∀ me2 : Except AxiosError MeData, initializeAuth me2 s = initializeAuth me s) := by
  refine ⟨?_, ?_, ?_, ?_⟩ <;> simp [initializeAuth, h]

/-- Claim C3 witness: init at a state whose persisted slot is empty. -/
theorem init_no_token_state_witness :
    ¬ truthy (AuthState.stored ⟨none, none, true, none, none⟩) ∧
    (initializeAuth (.ok ⟨none, ⟨"x", none⟩⟩) ⟨none, none, true, none, none⟩).user = none :=
  ⟨by decide,
   (init_no_token_state (.ok ⟨none, ⟨"x", none⟩⟩) ⟨none, none, true, none, none⟩
      (by decide)).1⟩

/-- Claim C4: with a truthy persisted token and a successful current-user
fetch, init adopts the extracted user, the resulting token is the
refreshed token when the response provides a truthy one and the existing
persisted token otherwise, the same value is written back to the
persisted slot, it is never absent, and loading ends false. -/
theorem init_with_token_success (d : MeData) (s : AuthState)
    (h : truthy s.stored) :
    (initializeAuth (.ok d) s).user = some (d.user.getD d.asUser) ∧
    (initializeAuth (.ok d) s).token =
      (if truthy (d.user.getD d.asUser).access_token
       then (d.user.getD d.asUser).access_token else s.stored) ∧
    (initializeAuth (.ok d) s).stored = (initializeAuth (.ok d) s).token ∧
    (initializeAuth (.ok d) s).token ≠ none ∧
    (initializeAuth (.ok d) s).loading = false := by
  have hs : ∃ t, s.stored = some t ∧ t ≠ "" := by
    cases hv : s.stored with
    | none => rw [hv] at h; simp [truthy] at h
    | some t =>
      refine ⟨t, rfl, ?_⟩
      rw [hv] at h; simpa [truthy] using h
  obtain ⟨t, ht, htne⟩ := hs
  cases hv : (d.user.getD d.asUser).access_token with
  | none => simp [initializeAuth, truthy, ht, htne, hv]
  | some a =>
    by_cases hae : a = ""
    · subst hae
      simp [initializeAuth, truthy, ht, htne, hv]
    · simp [initializeAuth, truthy, ht, htne, hv, hae]

/-- Claim C4 witness: init with a persisted token `old` and a response
carrying a refreshed token `newtk`. -/
theorem init_with_token_success_witness :
    truthy (AuthState.stored ⟨none, none, true, some "old", none⟩) = true ∧
    (initializeAuth (.ok ⟨some ⟨"admin", some "newtk"⟩, ⟨"x", none⟩⟩)
       ⟨none, none, true, some "old", none⟩).user = some ⟨"admin", some "newtk"⟩ :=
  ⟨by decide,
   (init_with_token_success ⟨some ⟨"admin", some "newtk"⟩, ⟨"x", none⟩⟩
      ⟨none, none, true, some "old", none⟩ (by decide)).1⟩

/-- Claim C5: with a truthy persisted token and a failing current-user
fetch, init clears the user, the token and the persisted slot; the error
is swallowed (`initializeAuth` returns a state, never a failure), and
loading ends false on every path of init, error or not. -/
theorem init_fetch_error_clears :
    (∀ (e : AxiosError) (s : AuthState), truthy s.stored →
      (initializeAuth (.error e) s).user = none ∧
      (initializeAuth (.error e) s).token = none ∧
      (initializeAuth (.error e) s).stored = none) ∧
    (∀ (me : Except AxiosError MeData) (s : AuthState),
      (initializeAuth me s).loading = false) := by
  constructor
  · intro e s h
    simp [initializeAuth, h]
  · intro me s
    cases me with
    | ok d =>
      by_cases h : truthy s.stored
      · simp only [initializeAuth, h, if_true]
      · simp [initializeAuth, h]
    | error e =>
      by_cases h : truthy s.stored <;> simp [initializeAuth, h]

/-- Claim C5 witness: a failing fetch at a state holding token `t`. -/
theorem init_fetch_error_clears_witness :
    truthy (AuthState.stored ⟨some ⟨"admin", none⟩, some "t", false, some "t", none⟩) = true ∧
    (initializeAuth (.error ⟨some ⟨some ⟨none, some "expired"⟩⟩⟩)
       ⟨some ⟨"admin", none⟩, some "t", false, some "t", none⟩).token = none :=
  ⟨by decide,
   (init_fetch_error_clears.1 ⟨some ⟨some ⟨none, some "expired"⟩⟩⟩
      ⟨some ⟨"admin", none⟩, some "t", false, some "t", none⟩ (by decide)).2.1⟩

/-- Claim C6: on a successful login whose response carries a user and a
non-empty access token, the token is stored in state and in the persisted
slot, the user is adopted, the result is the bare success object, and the
navigation target is the admin dashboard exactly when the role is
`admin` and the customer dashboard otherwise. -/
theorem login_success_stores_and_navigates (u : UserData) (tk : String)
    (em pw : String) (s : AuthState) (h : tk ≠ "") :
    (login (.ok ⟨some u, some tk⟩) em pw s).1 = { success := true } ∧
    (login (.ok ⟨some u, some tk⟩) em pw s).2.token = some tk ∧
    (login (.ok ⟨some u, some tk⟩) em pw s).2.stored = some tk ∧
    (login (.ok ⟨some u, some tk⟩) em pw s).2.user = some u ∧
    (login (.ok ⟨some u, some tk⟩) em pw s).2.nav =
      some (if u.role = "admin" then adminDashboard else customerDashboard) := by
  simp [login, truthy, h, roleTarget]

/-- Claim C6 witness: a login returning an admin user with token `t`
stores `t` and targets the admin dashboard. -/
theorem login_success_stores_and_navigates_witness :
    ("t" : String) ≠ "" ∧
    (login (.ok ⟨some ⟨"admin", none⟩, some "t"⟩) "a@b.com" "pw"
       ⟨none, none, true, none, none⟩).2.nav = some "/dashboard/admin" := by
  refine ⟨by decide, ?_⟩
  have h := (login_success_stores_and_navigates ⟨"admin", none⟩ "t" "a@b.com" "pw"
    ⟨none, none, true, none, none⟩ (by decide)).2.2.2.2
  simpa [adminDashboard] using h

/-- Claim C7: a login failing with a backend error payload whose error
field is a non-empty message returns the failure object carrying that
message and clears the user, the token and the persisted slot. -/
theorem login_error_payload_clears (msg : String) (em pw : String)
    (s : AuthState) (h : msg ≠ "") :
    (login (.error ⟨some ⟨some ⟨some msg, none⟩⟩⟩) em pw s).1.success = false ∧
    (login (.error ⟨some ⟨some ⟨some msg, none⟩⟩⟩) em pw s).1.error = some msg ∧
    (login (.error ⟨some ⟨some ⟨some msg, none⟩⟩⟩) em pw s).2.user = none ∧
    (login (.error ⟨some ⟨some ⟨some msg, none⟩⟩⟩) em pw s).2.token = none ∧
    (login (.error ⟨some ⟨some ⟨some msg, none⟩⟩⟩) em pw s).2.stored = none := by
  simp [login, extractErrMsg, truthy, h]

/-- Claim C7 witness: the payload `bad creds` comes back verbatim, from a
state that previously held a user and token. -/
theorem login_error_payload_clears_witness :
    ("bad creds" : String) ≠ "" ∧
    (login (.error ⟨some ⟨some ⟨some "bad creds", none⟩⟩⟩) "a@b.com" "pw"
       ⟨some ⟨"admin", none⟩, some "t", false, some "t", none⟩).1.error =
      some "bad creds" :=
  ⟨by decide,
   (login_error_payload_clears "bad creds" "a@b.com" "pw"
      ⟨some ⟨"admin", none⟩, some "t", false, some "t", none⟩ (by decide)).2.1⟩

/-- Claim C8: logout unconditionally clears the user, the token and the
persisted slot and navigates to the home route, and its outcome does not
depend on whether the backend call succeeded or failed. -/
theorem logout_unconditional_clear :
    (∀ (r : Except AxiosError Unit) (s : AuthState),
      (logout r s).user = none ∧
      (logout r s).token = none ∧
      (logout r s).stored = none ∧
      (logout r s).nav = some homeRoute) ∧
    (∀ (r r2 : Except AxiosError Unit) (s : AuthState), logout r s = logout r2 s) := by
  constructor
  · intro r s
    cases r <;> simp [logout]
  · intro r r2 s
    cases r <;> cases r2 <;> simp [logout]

/-- Claim C9: on a successful login or register whose response has no
truthy access token (field absent, null, or the empty string), the token
state and the persisted slot stay exactly as they were, the user is
replaced by the returned record, the call returns success, and it still
navigates to the role target. -/
theorem success_absent_token_frame (u : UserData) (tkOpt : JsStr)
    (em pw nm rl : String) (s : AuthState) (h : truthy tkOpt = false) :
    (login (.ok ⟨some u, tkOpt⟩) em pw s).2.token = s.token ∧
    (login (.ok ⟨some u, tkOpt⟩) em pw s).2.stored = s.stored ∧
    (login (.ok ⟨some u, tkOpt⟩) em pw s).2.user = some u ∧
    (login (.ok ⟨some u, tkOpt⟩) em pw s).1.success = true ∧
    (login (.ok ⟨some u, tkOpt⟩) em pw s).2.nav = some (roleTarget u) ∧
    (register (.ok ⟨some u, tkOpt⟩) em pw nm rl s).2.token = s.token ∧
    (register (.ok ⟨some u, tkOpt⟩) em pw nm rl s).2.stored = s.stored ∧
    (register (.ok ⟨some u, tkOpt⟩) em pw nm rl s).2.user = some u ∧
    (register (.ok ⟨some u, tkOpt⟩) em pw nm rl s).1.success = true ∧
    (register (.ok ⟨some u, tkOpt⟩) em pw nm rl s).2.nav = some (roleTarget u) := by
  simp [login, register, h]

/-- Claim C9 witness: a successful login whose response carries the empty
string as access token leaves the previously stored token `old` in
place. -/
theorem success_absent_token_frame_witness :
    truthy (some "") = false ∧
    (login (.ok ⟨some ⟨"customer", none⟩, some ""⟩) "a@b.com" "pw"
       ⟨none, some "old", false, some "old", none⟩).2.stored = some "old" :=
  ⟨by decide,
   (success_absent_token_frame ⟨"customer", none⟩ (some "") "a@b.com" "pw" "n" "customer"
      ⟨none, some "old", false, some "old", none⟩ (by decide)).2.1⟩

/-- Claim C10 counterexample: the claim states that whenever both the
error and the message field are present in the payload, the error field
takes precedence. With the payload `{error: "", message: "server says"}`
both fields are present, yet the extracted failure message is the message
field value, not the (empty) error field value: the `||` chain skips the
falsy empty string. -/
theorem errmsg_precedence_counterexample :
    (login (.error ⟨some ⟨some ⟨some "", some "server says"⟩⟩⟩) "a@b.com" "pw"
       ⟨none, none, true, none, none⟩).1.error = some "server says" ∧
    (some "server says" : Option String) ≠ some "" := by
  constructor
  · simp [login, extractErrMsg, truthy]
  · simp

/-- Claim C10 amended: when a login or register failure carries a payload
in which neither field holds a non-empty string (both absent or empty, or
no payload, or no response at all), the failure message defaults to
`Login failed` respectively `Registration failed`; a non-empty error field
takes precedence over the message field, and an empty-string error field
is skipped in favor of a non-empty message, empty fields counting as
absent throughout. -/
theorem errmsg_extraction_amended :
    (∀ (er ms : JsStr) (em pw : String) (s : AuthState),
      (login (.error ⟨some ⟨some ⟨er, ms⟩⟩⟩) em pw s).1.error =
        some (if truthy er then er.getD ""
              else if truthy ms then ms.getD "" else "Login failed")) ∧
    (∀ (er ms : JsStr) (em pw nm rl : String) (s : AuthState),
      (register (.error ⟨some ⟨some ⟨er, ms⟩⟩⟩) em pw nm rl s).1.error =
        some (if truthy er then er.getD ""
              else if truthy ms then ms.getD "" else "Registration failed")) ∧
    (∀ (em pw : String) (s : AuthState),
      (login (.error ⟨none⟩) em pw s).1.error = some "Login failed" ∧
      (login (.error ⟨some ⟨none⟩⟩) em pw s).1.error = some "Login failed") ∧
    (∀ (em pw nm rl : String) (s : AuthState),
      (register (.error ⟨none⟩) em pw nm rl s).1.error = some "Registration failed" ∧
      (register (.error ⟨some ⟨none⟩⟩) em pw nm rl s).1.error =
        some "Registration failed") := by
  refine ⟨?_, ?_, ?_, ?_⟩
  · intro er ms em pw s
    simp [login, extractErrMsg]
  · intro er ms em pw nm rl s
    simp [register, extractErrMsg]
  · intro em pw s
    constructor <;> simp [login, extractErrMsg]
  · intro em pw nm rl s
    constructor <;> simp [register, extractErrMsg]

end AuthProvider
